import Mathlib

/-!
Verification of the central-side GATT discovery/subscription engine of the
NFC-Rental-System repository.  The definitions below are shallow embeddings of
the C sources:

* `BleCentralMain` embeds `src/ble_central/src/main.c`
* `GatewayBle` embeds `src/RentScan/gateway_device/src/ble_central.c`
* `RentalMgr` embeds `src/RentScan/main_device/src/rental_manager.c`

Machine integers are modelled as `Nat`/`Int`; transport (Zephyr BLE stack)
return codes are oracle inputs; callbacks become explicit state-passing
functions.
-/

namespace RentScan

/-- Zephyr minimal-libc errno values used by the sources. -/
def EPERM : Int := 1

def ENOENT : Int := 2

def EIO : Int := 5

def EAGAIN : Int := 11

def ENOMEM : Int := 12

def EBUSY : Int := 16

def EINVAL : Int := 22

def EALREADY : Int := 120

def ENOTCONN : Int := 128

/-! Wire protocol (`src/RentScan/common/include/rentscan_protocol.h`). -/

def MAX_TAG_ID_LEN : Nat := 16

def MAX_MSG_PAYLOAD : Nat := 128

def CMD_RENTAL_START : Nat := 1

def CMD_RENTAL_END : Nat := 2

def CMD_STATUS_REQ : Nat := 3

def CMD_STATUS_RESP : Nat := 4

def CMD_ERROR : Nat := 0xFF

def STATUS_AVAILABLE : Nat := 0

def STATUS_RENTED : Nat := 1

def STATUS_EXPIRED : Nat := 2

/-- `rentscan_msg_t` (`rentscan_protocol.h:57-66`): the fixed-layout wire
message.  `tag_id` holds the 16 raw identifier bytes and `payload` the 128
payload bytes; the two `*_len` fields are plain `uint8_t` values that arrive
from the wire and are NOT constrained by the type, exactly as in C. -/
structure RentscanMsg where
  cmd : Nat
  status : Nat
  tag_id : List Nat
  tag_id_len : Nat
  timestamp : Nat
  duration : Nat
  payload : List Nat
  payload_len : Nat
deriving DecidableEq, Repr

/-- `sizeof(rentscan_msg_t)` under the C ABI used by the firmware:
cmd(1) status(1) tag_id(16) tag_id_len(1) pad(1) timestamp(4) duration(4)
payload(128) payload_len(1) pad(3) = 160 bytes. -/
def rentscan_msg_size : Nat := 160

/-- The four escalating recovery responses of the error-recovery policy
(spec section 3, `RecoveryLevel`). -/
inductive RecoveryLevel
  | retryInPlace
  | restartScan
  | fullStackReset
  | emergencyReset
deriving DecidableEq, Repr

/-- Position of a recovery level in the escalation order
`RetryInPlace < RestartScan < FullStackReset < EmergencyReset`. -/
def RecoveryLevel.toNat : RecoveryLevel → Nat
  | .retryInPlace => 0
  | .restartScan => 1
  | .fullStackReset => 2
  | .emergencyReset => 3

namespace BleCentralMain

/-- The 128-bit UUIDs that occur in `src/ble_central/src/main.c`, compared by
byte-exact equality in the source (`bt_uuid_cmp`); modelled as an enumeration
with decidable equality. -/
inductive CUuid
  | nus
  | nusRx
  | nusTx
  | gattCcc
  | other
deriving DecidableEq, Repr

/-- `bt_gatt_discover_params.type` values used by the source. -/
inductive DType
  | primary
  | chrc
  | desc
deriving DecidableEq, Repr

/-- The global `discover_params` of `src/ble_central/src/main.c`:
UUID filter (NULL when cleared), discovery type and handle range. -/
structure DiscParams where
  uuid : Option CUuid
  dtype : DType
  start_handle : Nat
  end_handle : Nat
deriving DecidableEq, Repr

/-- `memset(&discover_params, 0, ...)`: all fields zero, UUID pointer NULL,
type 0 (`BT_GATT_DISCOVER_PRIMARY` is 0 in Zephyr). -/
def DiscParams.zero : DiscParams := ⟨none, .primary, 0, 0⟩

/-- The global `nus_tx_subscribe_params` of `src/ble_central/src/main.c`
(only the two handle fields matter for the verified properties). -/
structure SubParams where
  value_handle : Nat
  ccc_handle : Nat
deriving DecidableEq, Repr

/-- `memset(&nus_tx_subscribe_params, 0, ...)`. -/
def SubParams.zero : SubParams := ⟨0, 0⟩

/-- The file-scope mutable state of `src/ble_central/src/main.c`: the tracked
connection (`current_conn`, `none` = NULL), the discovered handles, the
discovery and subscription parameter blocks and the two recovery counters. -/
structure St where
  current_conn : Option Nat
  nus_rx_handle : Nat
  nus_tx_handle : Nat
  nus_tx_ccc_handle : Nat
  current_service_start_handle : Nat
  nus_service_end_handle : Nat
  dp : DiscParams
  sub : SubParams
  consecutive_errors : Nat
  emergency_reset_count : Nat
deriving DecidableEq, Repr

/-- State with all handles, parameter blocks and counters zero and no tracked
connection (the state `bt_ready` establishes). -/
def St.init : St := ⟨none, 0, 0, 0, 0, 0, DiscParams.zero, SubParams.zero, 0, 0⟩

/-- The `disconnected` callback (`src/ble_central/src/main.c:242-271`).
`conn` is the identity of the connection the callback reports.  If it is not
the tracked connection the callback returns immediately; otherwise it
unsubscribes (transport side effect only), releases the connection and zeroes
every handle together with the subscription parameters, then restarts
scanning (scanning does not touch this state once the connection is gone). -/
def disconnected (conn : Nat) (s : St) : St :=
  if s.current_conn ≠ some conn then s
  else
    { s with
      current_conn := none
      nus_rx_handle := 0
      nus_tx_handle := 0
      nus_tx_ccc_handle := 0
      current_service_start_handle := 0
      nus_service_end_handle := 0
      sub := SubParams.zero }

/-- `complete_bt_reset` (`src/ble_central/src/main.c:609-711`): stop scanning,
drop any connection, zero all handles and both parameter blocks, disable and
re-enable the stack (transport side effects), schedule a scan restart.  It
does not touch `consecutive_errors` or `emergency_reset_count`. -/
def complete_bt_reset (s : St) : St :=
  { s with
    current_conn := none
    nus_rx_handle := 0
    nus_tx_handle := 0
    nus_tx_ccc_handle := 0
    current_service_start_handle := 0
    nus_service_end_handle := 0
    dp := DiscParams.zero
    sub := SubParams.zero }

/-- `error_recovery` (`src/ble_central/src/main.c:136-197`), returning the
recovery level it executes together with the post-state.  The source clears
`discover_params` and the four handles `nus_rx/tx/ccc/service_end`, increments
`consecutive_errors`, performs a full stack reset once that counter reaches 3,
and otherwise tears down any connection (clearing the subscription parameters
if a subscription was active) and restarts scanning. -/
def error_recovery (s : St) : RecoveryLevel × St :=
  let s1 : St :=
    { s with
      dp := DiscParams.zero
      nus_rx_handle := 0
      nus_tx_handle := 0
      nus_tx_ccc_handle := 0
      nus_service_end_handle := 0
      consecutive_errors := s.consecutive_errors + 1 }
  if s1.consecutive_errors ≥ 3 then
    (.fullStackReset, complete_bt_reset s1)
  else
    match s1.current_conn with
    | some _ =>
        let s2 := if s1.sub.value_handle ≠ 0 then { s1 with sub := SubParams.zero } else s1
        (.restartScan, { s2 with current_conn := none })
    | none => (.restartScan, s1)

/-- State after `n` consecutive invocations of `error_recovery` starting
from `s0` (a run of consecutive failures of the same kind). -/
def failState (s0 : St) : Nat → St
  | 0 => s0
  | n + 1 => (error_recovery (failState s0 n)).2

/-- Recovery level chosen for the `(n+1)`-th consecutive failure. -/
def failLevel (s0 : St) (n : Nat) : RecoveryLevel :=
  (error_recovery (failState s0 n)).1

theorem error_recovery_consecutive (s : St) :
    (error_recovery s).2.consecutive_errors = s.consecutive_errors + 1 := by
  unfold error_recovery
  dsimp only
  split
  · rfl
  · split
    · split <;> rfl
    · rfl

theorem failState_consecutive (s0 : St) (n : Nat) :
    (failState s0 n).consecutive_errors = s0.consecutive_errors + n := by
  induction n with
  | zero => rfl
  | succ k ih =>
      show (error_recovery (failState s0 k)).2.consecutive_errors = _
      rw [error_recovery_consecutive, ih]
      omega

theorem error_recovery_level_char (s : St) :
    (error_recovery s).1 =
      if s.consecutive_errors + 1 ≥ 3 then .fullStackReset else .restartScan := by
  unfold error_recovery
  dsimp only
  split
  · rfl
  · split <;> rfl

theorem failLevel_char (s0 : St) (h0 : s0.consecutive_errors = 0) (n : Nat) :
    failLevel s0 n = if n + 1 ≥ 3 then .fullStackReset else .restartScan := by
  unfold failLevel
  rw [error_recovery_level_char, failState_consecutive, h0]
  simp

/-! ### device_found: stale-connection-create handling
(`src/ble_central/src/main.c:713-811`) -/

/-- The three `static` counters of `device_found`:
`retry_count`, `total_retry_count`, `last_reset_time` (ms). -/
structure DfSt where
  retry_count : Nat
  total_retry_count : Nat
  last_reset_time : Nat
deriving DecidableEq, Repr

/-- Result of `bt_conn_le_create`: success, the stale-connection-state error
`-EINVAL` ("Found valid connection in disconnected state"), or another error. -/
inductive CreateResult
  | success
  | einval
  | other
deriving DecidableEq, Repr

/-- What `device_found` does after the `bt_conn_le_create` call. -/
inductive DfAction
  | connPending
  | fullReset
  | scheduleScan
  | restartScanNow
deriving DecidableEq, Repr

/-- The `bt_conn_le_create` result handling of `device_found`
(`src/ble_central/src/main.c:766-808`) at uptime `now`.  Before this point the
function has already torn down any stale connection and zeroed all handle
state (lines 741-760).  On `-EINVAL` it increments both retry counters and
escalates to `complete_bt_reset` when `retry_count >= 2`, or when more than 4
total retries happened within 60 s of the last full reset, or when
`retry_count == 1` but more than 10 total retries accumulated; otherwise it
schedules a fresh scan.  On success `retry_count` is reset to 0. -/
def device_found_create (now : Nat) (r : CreateResult) (s : DfSt) : DfAction × DfSt :=
  match r with
  | .success => (.connPending, { s with retry_count := 0 })
  | .einval =>
      let rc := s.retry_count + 1
      let tc := s.total_retry_count + 1
      if rc ≥ 2 ∨ (now - s.last_reset_time < 60000 ∧ tc > 4) ∨ (rc = 1 ∧ tc > 10) then
        (.fullReset, ⟨0, 0, now⟩)
      else
        (.scheduleScan, ⟨rc, tc, s.last_reset_time⟩)
  | .other => (.restartScanNow, { s with retry_count := 0 })

/-- Fold `device_found_create` over a sequence of (uptime, create-result)
events, to exhibit reachable counter states. -/
def df_run (evs : List (Nat × CreateResult)) (s : DfSt) : DfSt :=
  evs.foldl (fun s e => (device_found_create e.1 e.2 s).2) s

/-! ### start_scan (`src/ble_central/src/main.c:813-881`) -/

/-- Result of the fresh `bt_conn_get_info` query made by `start_scan`. -/
inductive ConnInfo
  | ok (connected : Bool)
  | queryErr
deriving DecidableEq, Repr

/-- Outcome of the scan-start retry loop. -/
inductive ScanOutcome
  | started
  | alreadyActive
  | deferred
  | resetFallback
deriving DecidableEq, Repr

/-- The `bt_le_scan_start` retry loop of `start_scan` (lines 847-878):
up to 5 attempts (result of attempt `r` is `f r`), retrying on `-EAGAIN`,
breaking on success or `-EALREADY`, deferring via the delayed work item on any
other error, and falling back to `complete_bt_reset` after 5 `-EAGAIN`s. -/
def scan_loop (f : Nat → Int) : Nat → Nat → ScanOutcome
  | 0, _ => .resetFallback
  | fuel + 1, r =>
      if r < 5 then
        let e := f r
        if e = 0 then .started
        else if e = -EAGAIN then scan_loop f fuel (r + 1)
        else if e = -EALREADY then .alreadyActive
        else .deferred
      else .resetFallback

/-- Result of one `start_scan` call: post-state, whether the call was a no-op
(early return because a live connection exists), whether a stale connection
was torn down first, whether at least one scan-start request was issued, and
the loop outcome when the loop ran. -/
structure ScanCallRes where
  st : St
  noop : Bool
  toreDown : Bool
  scanRequested : Bool
  outcome : Option ScanOutcome
deriving DecidableEq, Repr

/-- `start_scan` (`src/ble_central/src/main.c:813-881`).  With a tracked
connection it queries `bt_conn_get_info` (`info` oracle): a valid connected
state makes the call a no-op; otherwise the connection is disconnected,
released and cleared before the scan-start loop runs.  With no tracked
connection the loop runs directly.  `f` gives the successive
`bt_le_scan_start` results. -/
def start_scan (info : ConnInfo) (f : Nat → Int) (s : St) : ScanCallRes :=
  match s.current_conn with
  | some _ =>
      if info = .ok true then ⟨s, true, false, false, none⟩
      else
        let s1 := { s with current_conn := none }
        let oc := scan_loop f 6 0
        ⟨if oc = .resetFallback then complete_bt_reset s1 else s1, false, true, true, some oc⟩
  | none =>
      let oc := scan_loop f 6 0
      ⟨if oc = .resetFallback then complete_bt_reset s else s, false, false, true, some oc⟩

/-! ### The supervisory main loop (`src/ble_central/src/main.c:993-1027`) -/

/-- Condition observed by one iteration of the 10-second supervisory loop:
a connection exists, no connection for at most 2 minutes, or no connection
for more than 2 minutes (a persistent-failure incident). -/
inductive SupEvent
  | hasConn
  | noConnShort
  | noConnLong
deriving DecidableEq, Repr

/-- Recovery action taken by one supervisory-loop iteration. -/
inductive SupAction
  | idle
  | scanOnly
  | fullReset
  | emergency
deriving DecidableEq, Repr

/-- The two counters the supervisory loop decides on.  These are the globals
`consecutive_errors` and `emergency_reset_count`; the only write to
`emergency_reset_count` in the whole program is the increment at line 1011,
and none of `start_scan`, `complete_bt_reset`, `emergency_bt_reset` or
`error_recovery` modifies it. -/
structure SupSt where
  consecutive_errors : Nat
  emergency_reset_count : Nat
deriving DecidableEq, Repr

/-- One iteration of the supervisory loop body
(`src/ble_central/src/main.c:993-1027`): with a connection the error counter
resets; with a short outage it merely re-issues `start_scan`; with a long
outage it increments `consecutive_errors` and either performs
`emergency_bt_reset` (only while `consecutive_errors >= 5` and
`emergency_reset_count < 2`, incrementing the cap counter and zeroing the
error counter) or falls back to `complete_bt_reset`. -/
def main_loop_step (e : SupEvent) (s : SupSt) : SupAction × SupSt :=
  match e with
  | .hasConn => (.idle, { s with consecutive_errors := 0 })
  | .noConnShort => (.scanOnly, s)
  | .noConnLong =>
      let ce := s.consecutive_errors + 1
      if ce ≥ 5 ∧ s.emergency_reset_count < 2 then
        (.emergency, ⟨0, s.emergency_reset_count + 1⟩)
      else
        (.fullReset, { s with consecutive_errors := ce })

/-- Supervisory state after a sequence of loop iterations. -/
def main_loop_run (evs : List SupEvent) (s : SupSt) : SupSt :=
  evs.foldl (fun s e => (main_loop_step e s).2) s

/-- Number of `emergency_bt_reset` invocations over a sequence of
supervisory-loop iterations starting from `s`. -/
def emergency_resets (s : SupSt) : List SupEvent → Nat
  | [] => 0
  | e :: evs =>
      (if (main_loop_step e s).1 = .emergency then 1 else 0) +
        emergency_resets (main_loop_step e s).2 evs

/-! ### The subscribe retry loop (`src/ble_central/src/main.c:536-576`) -/

/-- Outcome of the notification-subscribe retry loop inside `discover_func`:
subscribed, already subscribed (`-EALREADY`, treated as success), or gave up
after 5 failures (the only outcome that invokes `error_recovery`). -/
inductive SubOutcome
  | okSubscribed
  | alreadySubscribed
  | gaveUp
deriving DecidableEq, Repr

/-- The `bt_gatt_subscribe` retry loop (`main.c:538-576`): at most
5 attempts (`max_subscribe_retries`), attempt number `r` returning `f r`;
`0` breaks with success, `-EALREADY` breaks reporting "Already subscribed",
any other error increments `subscribe_retries` and, once it reaches 5,
gives up and triggers `error_recovery`. -/
def subscribe_loop (f : Nat → Int) : Nat → Nat → SubOutcome
  | 0, _ => .gaveUp
  | fuel + 1, r =>
      if r < 5 then
        if f r = 0 then .okSubscribed
        else if f r = -EALREADY then .alreadySubscribed
        else if r + 1 ≥ 5 then .gaveUp
        else subscribe_loop f fuel (r + 1)
      else .gaveUp

/-- Whether a subscribe-loop outcome triggers `error_recovery` (only the
give-up path does: `main.c:567-570`). -/
def subscribe_recovery_triggered : SubOutcome → Bool
  | .gaveUp => true
  | _ => false

/-! ### discover_func (`src/ble_central/src/main.c:280-584`) -/

/-- A discovered attribute as delivered to `discover_func`, according to the
active discovery type: a primary-service attribute (with the service value's
UUID and end handle from `user_data`), a characteristic declaration (with the
characteristic's UUID from `user_data`), or a descriptor attribute. -/
inductive CAttr
  | svc (handle : Nat) (uuid : CUuid) (end_handle : Nat)
  | chrc (handle : Nat) (uuid : CUuid)
  | desc (handle : Nat)
deriving DecidableEq, Repr

/-- One invocation of the discovery callback: either an attribute was found
or the discovery round completed (`attr == NULL`). -/
inductive CEvent
  | found (a : CAttr)
  | complete
deriving DecidableEq, Repr

/-- Return value of a `bt_gatt_discover` callback. -/
inductive CIter
  | stop
  | cont
deriving DecidableEq, Repr

/-- `discover_func` (`src/ble_central/src/main.c:280-584`).  `conn` is the
connection identity delivered with the callback — the source never compares
it against `current_conn`.  `derr` is the result of the `bt_gatt_discover`
call issued by this invocation (if any) and `f` the oracle of
`bt_gatt_subscribe` results for the subscribe retry loop.  Dispatch follows
the source: on `attr == NULL` the UUID-filtered primary/characteristic stages
fall back to unfiltered discovery and the descriptor stage (or an exhausted
unfiltered stage) goes to `error_recovery`; on a found attribute the current
`discover_params.type` selects the stage.  The impossible combinations of
`discover_params.type` and attribute payload (which the transport never
delivers) leave the state unchanged. -/
def discover_func (conn : Nat) (f : Nat → Int) (derr : Int) (ev : CEvent) (s : St) :
    St × CIter :=
  match ev with
  | .complete =>
      if s.dp.dtype = .primary ∧ s.dp.uuid ≠ none then
        let s1 := { s with dp := ⟨none, .primary, 1, 0xffff⟩ }
        if derr ≠ 0 then ((error_recovery s1).2, .stop) else (s1, .stop)
      else if s.dp.dtype = .chrc ∧ (s.dp.uuid = some .nusRx ∨ s.dp.uuid = some .nusTx) then
        let s1 :=
          { s with dp := ⟨none, .chrc, s.current_service_start_handle, s.nus_service_end_handle⟩ }
        if derr ≠ 0 then ((error_recovery s1).2, .stop) else (s1, .stop)
      else ((error_recovery s).2, .stop)
  | .found a =>
      match s.dp.dtype, a with
      | .primary, .svc h uuid endH =>
          if uuid = .nus then
            let s1 :=
              { s with
                current_service_start_handle := h
                nus_service_end_handle := endH
                dp := ⟨some .nusRx, .chrc, h + 1, endH⟩ }
            if derr ≠ 0 then ((error_recovery s1).2, .stop) else (s1, .stop)
          else (s, .cont)
      | .chrc, .chrc h uuid =>
          if s.dp.uuid = none then (s, .cont)
          else if uuid = .nusRx then
            let s1 := { s with nus_rx_handle := h + 1 }
            if s1.nus_rx_handle ≠ 0 ∧ s1.nus_tx_handle ≠ 0 then
              let s2 :=
                { s1 with dp := ⟨some .gattCcc, .desc, s1.nus_tx_handle + 1, s1.nus_service_end_handle⟩ }
              if derr ≠ 0 then ((error_recovery s2).2, .stop) else (s2, .stop)
            else (s1, .cont)
          else if uuid = .nusTx then
            let s1 := { s with nus_tx_handle := h + 1 }
            if s1.nus_rx_handle ≠ 0 ∧ s1.nus_tx_handle ≠ 0 then
              let s2 :=
                { s1 with dp := ⟨some .gattCcc, .desc, s1.nus_tx_handle + 1, s1.nus_service_end_handle⟩ }
              if derr ≠ 0 then ((error_recovery s2).2, .stop) else (s2, .stop)
            else (s1, .cont)
          else (s, .cont)
      | .desc, .desc h =>
          if s.nus_tx_handle = 0 then ((error_recovery s).2, .stop)
          else if s.dp.uuid ≠ none ∧ s.dp.uuid ≠ some .gattCcc then (s, .cont)
          else if h ≤ s.nus_tx_handle ∨ h > s.nus_service_end_handle then (s, .cont)
          else
            let s1 := { s with nus_tx_ccc_handle := h }
            if s1.nus_rx_handle = 0 ∨ s1.nus_tx_handle = 0 ∨ s1.nus_tx_ccc_handle = 0 then
              ((error_recovery s1).2, .stop)
            else
              let s2 := { s1 with sub := ⟨s1.nus_tx_handle, h⟩ }
              let s3 := if subscribe_loop f 5 0 = .gaveUp then (error_recovery s2).2 else s2
              ({ s3 with dp := DiscParams.zero }, .stop)
      | _, _ => (s, .cont)

/-- `send_to_peripheral` (`src/ble_central/src/main.c:106-133`): with no
tracked connection return `-ENOTCONN`; with an undiscovered (zero) RX handle
return `-EINVAL`; otherwise issue the GATT write (result oracle `werr`).
The second component records whether a `bt_gatt_write` was issued. -/
def send_to_peripheral (werr : Int) (s : St) : Int × Bool :=
  match s.current_conn with
  | none => (-ENOTCONN, false)
  | some _ =>
      if s.nus_rx_handle = 0 then (-EINVAL, false)
      else (werr, true)

/-- `nus_notify_callback` (`src/ble_central/src/main.c:75-103`): an empty
notification (peer unsubscribed) zeroes the subscription value handle and
stops iteration; otherwise data is consumed and iteration continues.  Like
`discover_func`, it never compares `conn` against `current_conn`. -/
def nus_notify_callback (conn : Nat) (dataPresent : Bool) (s : St) : St × CIter :=
  if dataPresent then (s, .cont)
  else ({ s with sub := { s.sub with value_handle := 0 } }, .stop)

end BleCentralMain

namespace GatewayBle

/-- The 128-bit UUIDs occurring in
`src/RentScan/gateway_device/src/ble_central.c`, compared byte-exactly by
`bt_uuid_cmp`. -/
inductive GUuid
  | rentscan
  | rentscanRx
  | rentscanTx
  | gattCcc
  | other
deriving DecidableEq, Repr

/-- The file-scope mutable state of
`src/RentScan/gateway_device/src/ble_central.c`: tracked connection, the two
discovered value handles, the active `discover_params` UUID filter
(`none` after `memset`) and start handle, the subscription parameters, the
cached `scanning` flag and the consecutive-error counter. -/
structure GSt where
  current_conn : Option Nat
  nus_rx_handle : Nat
  nus_tx_handle : Nat
  d_uuid : Option GUuid
  d_start : Nat
  sub_value_handle : Nat
  sub_ccc_handle : Nat
  scanning : Bool
  consecutive_errors : Nat
deriving DecidableEq, Repr

/-- `GATEWAY_ERROR_RESET_THRESHOLD`
(`src/RentScan/gateway_device/include/gateway_config.h:20`). -/
def GATEWAY_ERROR_RESET_THRESHOLD : Nat := 5

/-- The `bt_le_scan_start` retry loop of the gateway's `start_scan`
(`ble_central.c:346-368`): up to 3 attempts, retrying only on `-EAGAIN`;
returns whether scanning was successfully started. -/
def gw_scan_loop (f : Nat → Int) : Nat → Nat → Bool
  | 0, _ => false
  | fuel + 1, r =>
      if r < 3 then
        let e := f r
        if e = 0 then true
        else if e = -EAGAIN then gw_scan_loop f fuel (r + 1)
        else false
      else false

/-- The gateway's `start_scan` (`ble_central.c:335-371`).  It consults only
the cached `scanning` flag: if set, the call returns immediately; otherwise
the retry loop runs and `scanning` records its outcome.  The Boolean result
reports whether at least one scan-start request was issued.  Note that,
unlike the `ble_central` variant, this function never inspects
`current_conn`. -/
def start_scan (f : Nat → Int) (s : GSt) : GSt × Bool :=
  if s.scanning then (s, false)
  else ({ s with scanning := gw_scan_loop f 4 0 }, true)

/-- The gateway's `disconnected` callback (`ble_central.c:313-328`): release
the connection reference if one exists, clear the `scanning` flag and call
`start_scan`.  No handle or subscription-parameter field is touched, and the
callback's `conn` argument is never compared against `current_conn`. -/
def disconnected (f : Nat → Int) (conn : Nat) (s : GSt) : GSt :=
  (start_scan f { s with current_conn := none, scanning := false }).1

/-- `ble_central_reset` (`ble_central.c:445-465`): disconnect and drop any
connection, stop scanning, then restart scanning. -/
def ble_central_reset (f : Nat → Int) (s : GSt) : GSt :=
  (start_scan f { s with current_conn := none, scanning := false }).1

/-- The gateway's two recovery levels: `ble_central_reset` (its highest,
"reset BLE" level) and disconnect-plus-rescan. -/
inductive GwRecovery
  | restartScan
  | resetBle
deriving DecidableEq, Repr

/-- Position in the shared escalation order (`RestartScan` = 1, the reset
level = 2). -/
def GwRecovery.toNat : GwRecovery → Nat
  | .restartScan => 1
  | .resetBle => 2

/-- The gateway's `error_recovery` (`ble_central.c:373-388`): increment
`consecutive_errors`; at `GATEWAY_ERROR_RESET_THRESHOLD` zero the counter and
run `ble_central_reset`, otherwise disconnect the current connection
(asynchronously — `current_conn` stays set until the `disconnected` callback)
and restart scanning. -/
def error_recovery (f : Nat → Int) (s : GSt) : GwRecovery × GSt :=
  let ce := s.consecutive_errors + 1
  if ce ≥ GATEWAY_ERROR_RESET_THRESHOLD then
    (.resetBle, ble_central_reset f { s with consecutive_errors := 0 })
  else
    (.restartScan, (start_scan f { s with consecutive_errors := ce, scanning := false }).1)

/-- State after `n` consecutive gateway `error_recovery` invocations
(scan restarts succeeding, `f = fun _ => 0`). -/
def gwFailState (s0 : GSt) : Nat → GSt
  | 0 => s0
  | n + 1 => (error_recovery (fun _ => 0) (gwFailState s0 n)).2

/-- Recovery level chosen by the gateway for the `(n+1)`-th consecutive
failure. -/
def gwFailLevel (s0 : GSt) (n : Nat) : GwRecovery :=
  (error_recovery (fun _ => 0) (gwFailState s0 n)).1

/-- Actions emitted by the gateway's `discover_func`: a follow-up discovery
request, a canonical subscribe (CCC descriptor actually discovered), or a
best-guess subscribe using estimated handles (the degraded path, logged as
"manual"/"estimated" subscription in the source). -/
inductive GwAct
  | discoverReq (uuid : GUuid) (start : Nat)
  | subscribeCanonical (value ccc : Nat)
  | subscribeGuessed (value ccc : Nat)
deriving DecidableEq, Repr

/-- One invocation of the gateway discovery callback: an attribute with its
handle, or completion (`attr == NULL`). -/
inductive GwEvent
  | attr (handle : Nat)
  | complete
deriving DecidableEq, Repr

/-- The gateway's `discover_func` (`ble_central.c:133-282`).  Stage dispatch
is on the current `discover_params.uuid`; `derr` is the result of the
`bt_gatt_discover` call issued by this invocation (if any).  On completion
(`attr == NULL`) with no TX handle discovered, it estimates handles from the
last discovery start handle (`primary+3/+5/+6`) and subscribes with them; a
failed RX-characteristic discovery request with `-ENOENT`/`-ENOMEM`
likewise falls back to estimated handles, and a failed CCC discovery request
falls back to `attr->handle + 2` as the CCC handle.  The CCC-found stage
performs the canonical subscribe.  `bt_gatt_attr_value_handle` is the
declaration handle plus one. -/
def discover_func (derr : Int) (ev : GwEvent) (s : GSt) : GSt × List GwAct :=
  match ev with
  | .complete =>
      if s.nus_tx_handle = 0 then
        let ph := s.d_start - 1
        ({ s with
            nus_rx_handle := ph + 3
            nus_tx_handle := ph + 5
            sub_value_handle := ph + 5
            sub_ccc_handle := ph + 6
            d_uuid := none
            d_start := 0 },
         [.subscribeGuessed (ph + 5) (ph + 6)])
      else ({ s with d_uuid := none, d_start := 0 }, [])
  | .attr h =>
      match s.d_uuid with
      | some .rentscan =>
          let s1 := { s with d_uuid := some .rentscanRx, d_start := h + 1 }
          if derr = 0 then (s1, [.discoverReq .rentscanRx (h + 1)])
          else if derr = -ENOENT ∨ derr = -ENOMEM then
            ({ s1 with
                nus_rx_handle := h + 3
                nus_tx_handle := h + 5
                sub_value_handle := h + 5
                sub_ccc_handle := h + 6 },
             [.discoverReq .rentscanRx (h + 1), .subscribeGuessed (h + 5) (h + 6)])
          else (s1, [.discoverReq .rentscanRx (h + 1)])
      | some .rentscanRx =>
          ({ s with nus_rx_handle := h + 1, d_uuid := some .rentscanTx, d_start := h + 1 },
           [.discoverReq .rentscanTx (h + 1)])
      | some .rentscanTx =>
          let s1 := { s with nus_tx_handle := h + 1, d_uuid := some .gattCcc, d_start := h + 1 }
          if derr = 0 then (s1, [.discoverReq .gattCcc (h + 1)])
          else
            ({ s1 with sub_value_handle := h + 1, sub_ccc_handle := h + 2 },
             [.discoverReq .gattCcc (h + 1), .subscribeGuessed (h + 1) (h + 2)])
      | some .gattCcc =>
          ({ s with sub_value_handle := s.nus_tx_handle, sub_ccc_handle := h },
           [.subscribeCanonical s.nus_tx_handle h])
      | _ => (s, [])

/-- The subscribe-result check used at every gateway subscribe site
(`if (err && err != -EALREADY)` — `ble_central.c:165,202,252,272`): whether
the result is reported as a subscribe failure. -/
def subscribe_err_reported (serr : Int) : Bool :=
  decide (serr ≠ 0 ∧ serr ≠ -EALREADY)

/-- `ble_central_send_message` (`ble_central.c:427-435`): `-ENOTCONN` when no
connection is tracked or the RX handle is still zero, otherwise the
write-without-response is issued (result oracle `werr`).  The Boolean records
whether a GATT write was issued. -/
def ble_central_send_message (werr : Int) (s : GSt) : Int × Bool :=
  if s.current_conn = none ∨ s.nus_rx_handle = 0 then (-ENOTCONN, false)
  else (werr, true)

/-- The forwarding decision of the gateway's `notify_handler`
(`ble_central.c:32-47`) for a non-empty notification carrying `msg` in a
buffer of `len` bytes: the message is handed to `msg_callback` whenever the
callback is registered and `len >= sizeof(rentscan_msg_t)` — no field of the
message (in particular neither `tag_id_len` nor `payload_len`) is inspected. -/
def notify_handler_forwards (cbSet : Bool) (msg : RentscanMsg) (len : Nat) : Bool :=
  cbSet && decide (rentscan_msg_size ≤ len)

end GatewayBle

namespace RentalMgr

/-- `struct rental_entry` (`src/RentScan/main_device/src/rental_manager.c:12-18`).
`tag_id` holds the 16 stored identifier bytes; entries created by
`rental_manager_process_tag` always have `tag_id_len <= 16`. -/
structure RentalEntry where
  tag_id : List Nat
  tag_id_len : Nat
  status : Nat
  start_time : Nat
  duration : Nat
deriving DecidableEq, Repr

/-- The match test of `find_rental` (`rental_manager.c:43-52`): equal
`tag_id_len` and `memcmp`-equal first `tag_id_len` identifier bytes. -/
def tag_matches (e : RentalEntry) (tid : List Nat) (len : Nat) : Bool :=
  decide (e.tag_id_len = len) && decide (e.tag_id.take len = tid.take len)

/-- `find_rental` (`rental_manager.c:43-52`): index of the first matching
entry, if any. -/
def find_rental (rs : List RentalEntry) (tid : List Nat) (len : Nat) : Option Nat :=
  rs.findIdx? (fun e => tag_matches e tid len)

/-- `rental_manager_process_command` (`rental_manager.c:115-158`).  The only
length validation is `len < sizeof(rentscan_msg_t)`; afterwards the message's
`tag_id_len` is fed to `find_rental` unchecked and `payload_len` is never
read.  Returns the C return value and the updated rental table. -/
def rental_manager_process_command (rs : List RentalEntry) (msg : RentscanMsg) (len : Nat) :
    Int × List RentalEntry :=
  if len < rentscan_msg_size then (-EINVAL, rs)
  else
    match find_rental rs msg.tag_id msg.tag_id_len with
    | none => (-ENOENT, rs)
    | some i =>
        match rs[i]? with
        | none => (-ENOENT, rs)
        | some e =>
            if msg.cmd = CMD_RENTAL_START then
              if e.status ≠ STATUS_AVAILABLE then (-EBUSY, rs)
              else
                (0, rs.set i
                  { e with status := STATUS_RENTED, start_time := msg.timestamp,
                           duration := msg.duration })
            else if msg.cmd = CMD_RENTAL_END then
              if e.status ≠ STATUS_RENTED ∧ e.status ≠ STATUS_EXPIRED then (-EINVAL, rs)
              else (0, rs.set i { e with status := STATUS_AVAILABLE, start_time := 0, duration := 0 })
            else (-EINVAL, rs)

end RentalMgr

/-! ## Helper lemmas -/

/-- A state of the gateway embedding with everything empty. -/
def GatewayBle.GSt.init : GatewayBle.GSt := ⟨none, 0, 0, none, 0, 0, 0, false, 0⟩

theorem gw_start_scan_consecutive (f : Nat → Int) (s : GatewayBle.GSt) :
    (GatewayBle.start_scan f s).1.consecutive_errors = s.consecutive_errors := by
  unfold GatewayBle.start_scan
  split <;> rfl

theorem gw_error_recovery_consecutive (f : Nat → Int) (s : GatewayBle.GSt) :
    (GatewayBle.error_recovery f s).2.consecutive_errors =
      if s.consecutive_errors + 1 ≥ 5 then 0 else s.consecutive_errors + 1 := by
  unfold GatewayBle.error_recovery GatewayBle.ble_central_reset
    GatewayBle.GATEWAY_ERROR_RESET_THRESHOLD
  dsimp only
  split
  · rw [gw_start_scan_consecutive]
  · rw [gw_start_scan_consecutive]

theorem gw_error_recovery_level (f : Nat → Int) (s : GatewayBle.GSt) :
    (GatewayBle.error_recovery f s).1 =
      if s.consecutive_errors + 1 ≥ 5 then .resetBle else .restartScan := by
  unfold GatewayBle.error_recovery GatewayBle.GATEWAY_ERROR_RESET_THRESHOLD
  dsimp only
  split <;> rfl

theorem gwFailState_consecutive (g0 : GatewayBle.GSt) (h0 : g0.consecutive_errors = 0) :
    ∀ n, n ≤ 4 → (GatewayBle.gwFailState g0 n).consecutive_errors = n := by
  intro n
  induction n with
  | zero => intro _; exact h0
  | succ k ih =>
      intro hk
      show (GatewayBle.error_recovery _ (GatewayBle.gwFailState g0 k)).2.consecutive_errors = _
      rw [gw_error_recovery_consecutive, ih (by omega), if_neg (by omega)]

theorem gwFailLevel_char (g0 : GatewayBle.GSt) (h0 : g0.consecutive_errors = 0)
    (n : Nat) (hn : n ≤ 4) :
    GatewayBle.gwFailLevel g0 n =
      if n + 1 ≥ 5 then .resetBle else .restartScan := by
  unfold GatewayBle.gwFailLevel
  rw [gw_error_recovery_level, gwFailState_consecutive g0 h0 n hn]

/-! ## Claims -/

/-- C1 (counterexample): the claim quantifies over both `disconnected`
implementations, but the gateway variant
(`src/RentScan/gateway_device/src/ble_central.c:313-328`) leaves every
discovered handle and the subscription parameters untouched: from a state
with RX handle 7, TX handle 9 and an active subscription on handle 9, its
`disconnected` callback keeps all three values. -/
theorem C1_counterexample :
    (GatewayBle.disconnected (fun _ => 0) 1
        ⟨some 1, 7, 9, none, 0, 9, 10, false, 0⟩).nus_rx_handle = 7 ∧
    (GatewayBle.disconnected (fun _ => 0) 1
        ⟨some 1, 7, 9, none, 0, 9, 10, false, 0⟩).nus_tx_handle = 9 ∧
    (GatewayBle.disconnected (fun _ => 0) 1
        ⟨some 1, 7, 9, none, 0, 9, 10, false, 0⟩).sub_value_handle = 9 := by
  exact ⟨rfl, rfl, rfl⟩

/-- C1 (amended): in `src/ble_central/src/main.c`, for every state and any
stage of discovery captured by it, the `disconnected` callback for the
tracked connection drops the connection and zeroes the RX/TX value handles,
the CCC handle, the service handle range and the subscription parameters;
the gateway variant does not perform this reset (see the counterexample). -/
theorem C1_main_reset_complete (s : BleCentralMain.St) (conn : Nat)
    (h : s.current_conn = some conn) :
    (BleCentralMain.disconnected conn s).current_conn = none ∧
    (BleCentralMain.disconnected conn s).nus_rx_handle = 0 ∧
    (BleCentralMain.disconnected conn s).nus_tx_handle = 0 ∧
    (BleCentralMain.disconnected conn s).nus_tx_ccc_handle = 0 ∧
    (BleCentralMain.disconnected conn s).current_service_start_handle = 0 ∧
    (BleCentralMain.disconnected conn s).nus_service_end_handle = 0 ∧
    (BleCentralMain.disconnected conn s).sub = BleCentralMain.SubParams.zero := by
  unfold BleCentralMain.disconnected
  rw [if_neg (by simp [h])]
  exact ⟨rfl, rfl, rfl, rfl, rfl, rfl, rfl⟩

/-- C1 witness: the amended reset-completeness theorem applied to a concrete
mid-discovery state (service range and both characteristic handles populated,
subscription active). -/
theorem C1_main_reset_complete_witness :
    (BleCentralMain.disconnected 3
        ⟨some 3, 18, 21, 22, 16, 32, ⟨some .gattCcc, .desc, 22, 32⟩, ⟨21, 22⟩, 1, 0⟩).nus_rx_handle
      = 0 := by
  exact (C1_main_reset_complete
    ⟨some 3, 18, 21, 22, 16, 32, ⟨some .gattCcc, .desc, 22, 32⟩, ⟨21, 22⟩, 1, 0⟩ 3 rfl).2.1

/-- C2: starting from a zero consecutive-error counter, the sequence of
recovery levels produced by consecutive `error_recovery` invocations in
`src/ble_central/src/main.c` is non-decreasing in the escalation order,
starts at `RestartScan` (never `FullStackReset` on the first failure) and
reaches `FullStackReset` on the third consecutive failure, staying there;
the gateway variant likewise escalates monotonically from `RestartScan` to
its reset level, reached on the fifth consecutive failure (the counter is
zeroed by that reset, ending the incident). -/
theorem C2_monotonic_escalation :
    (∀ s0 : BleCentralMain.St, s0.consecutive_errors = 0 →
      (∀ i j, i ≤ j →
        (BleCentralMain.failLevel s0 i).toNat ≤ (BleCentralMain.failLevel s0 j).toNat) ∧
      BleCentralMain.failLevel s0 0 = .restartScan ∧
      (∀ n, n < 2 → BleCentralMain.failLevel s0 n ≠ .fullStackReset) ∧
      (∀ n, 2 ≤ n → BleCentralMain.failLevel s0 n = .fullStackReset)) ∧
    (∀ g0 : GatewayBle.GSt, g0.consecutive_errors = 0 →
      (∀ i j, i ≤ j → j ≤ 4 →
        (GatewayBle.gwFailLevel g0 i).toNat ≤ (GatewayBle.gwFailLevel g0 j).toNat) ∧
      GatewayBle.gwFailLevel g0 0 = .restartScan ∧
      GatewayBle.gwFailLevel g0 4 = .resetBle) := by
  constructor
  · intro s0 h0
    refine ⟨?_, ?_, ?_, ?_⟩
    · intro i j hij
      rw [BleCentralMain.failLevel_char s0 h0 i, BleCentralMain.failLevel_char s0 h0 j]
      split_ifs with h1 h2 <;> simp [RecoveryLevel.toNat] <;> omega
    · rw [BleCentralMain.failLevel_char s0 h0 0]
      rfl
    · intro n hn
      rw [BleCentralMain.failLevel_char s0 h0 n, if_neg (by omega)]
      simp
    · intro n hn
      rw [BleCentralMain.failLevel_char s0 h0 n, if_pos (by omega)]
  · intro g0 h0
    refine ⟨?_, ?_, ?_⟩
    · intro i j hij hj
      rw [gwFailLevel_char g0 h0 i (by omega), gwFailLevel_char g0 h0 j hj]
      split_ifs with h1 h2 <;> simp [GatewayBle.GwRecovery.toNat] <;> omega
    · rw [gwFailLevel_char g0 h0 0 (by omega)]
      rfl
    · rw [gwFailLevel_char g0 h0 4 (by omega)]
      rfl

/-- C2 witness: the escalation theorem evaluated from the empty initial
states: third failure of the `ble_central` variant is a full stack reset,
first is a scan restart; fifth gateway failure is its BLE reset. -/
theorem C2_monotonic_escalation_witness :
    BleCentralMain.failLevel BleCentralMain.St.init 2 = .fullStackReset ∧
    BleCentralMain.failLevel BleCentralMain.St.init 0 = .restartScan ∧
    GatewayBle.gwFailLevel GatewayBle.GSt.init 4 = .resetBle :=
  ⟨(C2_monotonic_escalation.1 BleCentralMain.St.init rfl).2.2.2 2 (by omega),
   (C2_monotonic_escalation.1 BleCentralMain.St.init rfl).2.1,
   (C2_monotonic_escalation.2 GatewayBle.GSt.init rfl).2.2⟩

/-- C3 (counterexample): the claim "with a per-target retry count below 2 the
policy restarts scanning" fails.  Ten alternating stale-create failures and
successful connections (all after the 60 s window) leave the counters at
`retry_count = 0`, `total_retry_count = 10`; the next `-EINVAL` create
failure then triggers `complete_bt_reset` (the `retry_count == 1 &&
total_retry_count > 10` disjunct at `src/ble_central/src/main.c:780`) even
though the per-target retry count is below 2. -/
theorem C3_counterexample :
    BleCentralMain.df_run
        ((List.replicate 10 [(100000, BleCentralMain.CreateResult.einval),
                             (100000, BleCentralMain.CreateResult.success)]).flatten)
        ⟨0, 0, 0⟩ = ⟨0, 10, 0⟩ ∧
    (⟨0, 10, 0⟩ : BleCentralMain.DfSt).retry_count < 2 ∧
    (BleCentralMain.device_found_create 100000 .einval ⟨0, 10, 0⟩).1 = .fullReset := by
  exact ⟨by decide, by decide, by decide⟩

/-- C3 (amended): on a stale-connection-state (`-EINVAL`) create failure,
when the incremented per-target retry count stays below 2 AND the
accumulated total retry count is at most 10 AND the rolling-window trigger
does not fire (either at least 60 s have passed since the last full reset or
the total count is at most 4), the policy schedules a scan restart (handles
were already cleared before the attempt, lines 747-760); once the per-target
retry count reaches 2 it always performs a complete BT stack reset; and a
successful connection creation resets the per-target retry count to 0. -/
theorem C3_stale_create_policy (s : BleCentralMain.DfSt) (now : Nat) :
    (s.retry_count + 1 < 2 → s.total_retry_count + 1 ≤ 10 →
      (60000 ≤ now - s.last_reset_time ∨ s.total_retry_count + 1 ≤ 4) →
      (BleCentralMain.device_found_create now .einval s).1 = .scheduleScan ∧
      (BleCentralMain.device_found_create now .einval s).2 =
        ⟨s.retry_count + 1, s.total_retry_count + 1, s.last_reset_time⟩) ∧
    (2 ≤ s.retry_count + 1 →
      (BleCentralMain.device_found_create now .einval s).1 = .fullReset) ∧
    (BleCentralMain.device_found_create now .success s).2.retry_count = 0 := by
  refine ⟨?_, ?_, rfl⟩
  · intro h1 h2 h3
    unfold BleCentralMain.device_found_create
    dsimp only
    rw [if_neg (by omega)]
    exact ⟨rfl, rfl⟩
  · intro h1
    unfold BleCentralMain.device_found_create
    dsimp only
    rw [if_pos (Or.inl h1)]

/-- C3 witness: the amended policy applied at concrete counter states — a
first stale failure with small totals schedules a rescan, a second one forces
the full reset, and a success clears the retry count. -/
theorem C3_stale_create_policy_witness :
    (BleCentralMain.device_found_create 70000 .einval ⟨0, 0, 0⟩).1 = .scheduleScan ∧
    (BleCentralMain.device_found_create 70000 .einval ⟨1, 1, 0⟩).1 = .fullReset ∧
    (BleCentralMain.device_found_create 70000 .success ⟨1, 1, 0⟩).2.retry_count = 0 :=
  ⟨((C3_stale_create_policy ⟨0, 0, 0⟩ 70000).1 (by decide) (by decide)
      (Or.inl (by decide))).1,
   (C3_stale_create_policy ⟨1, 1, 0⟩ 70000).2.1 (by decide),
   (C3_stale_create_policy ⟨1, 1, 0⟩ 70000).2.2⟩

/-- C4: in the gateway's `discover_func`, a subscribe with guessed
(estimated) handles is emitted only when either the discovery round completed
(`attr == NULL`) while the TX value handle was never discovered — a canonical
discovery pass exhausted without a match — or the canonical `bt_gatt_discover`
request issued in the same invocation failed (`derr ≠ 0`); on every other
path no guessed subscribe occurs, and the canonical subscribe is emitted only
from the CCC-descriptor-found stage. -/
theorem C4_guess_only_after_failure (derr : Int) (ev : GatewayBle.GwEvent)
    (s : GatewayBle.GSt) (v c : Nat)
    (h : GatewayBle.GwAct.subscribeGuessed v c ∈ (GatewayBle.discover_func derr ev s).2) :
    (ev = .complete ∧ s.nus_tx_handle = 0) ∨ derr ≠ 0 := by
  unfold GatewayBle.discover_func at h
  match ev with
  | .complete =>
      by_cases htx : s.nus_tx_handle = 0
      · exact Or.inl ⟨rfl, htx⟩
      · simp [htx] at h
  | .attr hh =>
      match hu : s.d_uuid with
      | some .rentscan =>
          simp only [hu] at h
          by_cases hd : derr = 0
          · simp [hd] at h
          · exact Or.inr hd
      | some .rentscanRx =>
          simp only [hu] at h
          simp at h
      | some .rentscanTx =>
          simp only [hu] at h
          by_cases hd : derr = 0
          · simp [hd] at h
          · exact Or.inr hd
      | some .gattCcc =>
          simp only [hu] at h
          simp at h
      | some .other =>
          simp only [hu] at h
          simp at h
      | none =>
          simp only [hu] at h
          simp at h

/-- C4 witness: a concrete guessed subscribe — the RX-characteristic
discovery request failing with `-ENOENT` right after the service was found at
handle 5 — indeed follows a canonical discovery failure. -/
theorem C4_guess_only_after_failure_witness :
    (GatewayBle.GwEvent.attr 5 = .complete ∧
        ({ GatewayBle.GSt.init with d_uuid := some .rentscan } :
          GatewayBle.GSt).nus_tx_handle = 0) ∨
      (-ENOENT : Int) ≠ 0 :=
  C4_guess_only_after_failure (-ENOENT) (.attr 5)
    { GatewayBle.GSt.init with d_uuid := some .rentscan } 10 11 (by decide)

/-- C5 (counterexample): the gateway's `start_scan` never inspects the
connection: from a state with a live tracked connection (and the cached
`scanning` flag clear), it issues the scan-start request and ends up
scanning while the connection still exists — neither a no-op nor a teardown,
violating the claimed "scanning iff no live or pending connection". -/
theorem C5_counterexample :
    (GatewayBle.start_scan (fun _ => 0)
        ⟨some 1, 0, 0, none, 0, 0, 0, false, 0⟩).2 = true ∧
    (GatewayBle.start_scan (fun _ => 0)
        ⟨some 1, 0, 0, none, 0, 0, 0, false, 0⟩).1.scanning = true ∧
    (GatewayBle.start_scan (fun _ => 0)
        ⟨some 1, 0, 0, none, 0, 0, 0, false, 0⟩).1.current_conn = some 1 := by
  exact ⟨rfl, rfl, rfl⟩

/-- C5 (amended): in `src/ble_central/src/main.c`, `start_scan` is a no-op
exactly when a connection object exists and the fresh `bt_conn_get_info`
query reports it connected; when the query errors or reports another state,
the stale connection is torn down (disconnected, released, cleared) before
the scan-start request is issued; with no connection the request is issued
directly.  The gateway variant checks only its cached `scanning` flag (see
the counterexample). -/
theorem C5_main_scan_invariant (s : BleCentralMain.St) (f : Nat → Int)
    (info : BleCentralMain.ConnInfo) :
    (∀ c, s.current_conn = some c → info = .ok true →
      BleCentralMain.start_scan info f s = ⟨s, true, false, false, none⟩) ∧
    (∀ c, s.current_conn = some c → info ≠ .ok true →
      (BleCentralMain.start_scan info f s).toreDown = true ∧
      (BleCentralMain.start_scan info f s).st.current_conn = none ∧
      (BleCentralMain.start_scan info f s).scanRequested = true ∧
      (BleCentralMain.start_scan info f s).noop = false) ∧
    (s.current_conn = none →
      (BleCentralMain.start_scan info f s).scanRequested = true ∧
      (BleCentralMain.start_scan info f s).toreDown = false ∧
      (BleCentralMain.start_scan info f s).noop = false) := by
  refine ⟨?_, ?_, ?_⟩
  · intro c hc hinfo
    subst hinfo
    unfold BleCentralMain.start_scan
    rw [hc]
    rfl
  · intro c hc hinfo
    unfold BleCentralMain.start_scan
    rw [hc]
    rw [if_neg hinfo]
    refine ⟨rfl, ?_, rfl, rfl⟩
    dsimp only
    split <;> rfl
  · intro hc
    unfold BleCentralMain.start_scan
    rw [hc]
    exact ⟨rfl, rfl, rfl⟩

/-- C5 witness: the amended theorem at concrete states — a connected-state
query makes the call a no-op, a stale connection is torn down with a scan
request issued, and with no connection a scan request is issued. -/
theorem C5_main_scan_invariant_witness :
    BleCentralMain.start_scan (.ok true) (fun _ => 0)
        { BleCentralMain.St.init with current_conn := some 7 } =
      ⟨{ BleCentralMain.St.init with current_conn := some 7 }, true, false, false, none⟩ ∧
    (BleCentralMain.start_scan (.ok false) (fun _ => 0)
        { BleCentralMain.St.init with current_conn := some 7 }).toreDown = true ∧
    (BleCentralMain.start_scan .queryErr (fun _ => 0)
        BleCentralMain.St.init).scanRequested = true :=
  ⟨(C5_main_scan_invariant { BleCentralMain.St.init with current_conn := some 7 }
      (fun _ => 0) (.ok true)).1 7 rfl rfl,
   ((C5_main_scan_invariant { BleCentralMain.St.init with current_conn := some 7 }
      (fun _ => 0) (.ok false)).2.1 7 rfl (by decide)).1,
   ((C5_main_scan_invariant BleCentralMain.St.init (fun _ => 0) .queryErr).2.2 rfl).1⟩

theorem main_loop_step_emergency (e : BleCentralMain.SupEvent) (s : BleCentralMain.SupSt) :
    ((BleCentralMain.main_loop_step e s).1 = .emergency →
      s.emergency_reset_count < 2 ∧
      (BleCentralMain.main_loop_step e s).2.emergency_reset_count =
        s.emergency_reset_count + 1) ∧
    ((BleCentralMain.main_loop_step e s).1 ≠ .emergency →
      (BleCentralMain.main_loop_step e s).2.emergency_reset_count =
        s.emergency_reset_count) := by
  cases e with
  | hasConn => exact ⟨fun h => by simp [BleCentralMain.main_loop_step] at h, fun _ => rfl⟩
  | noConnShort => exact ⟨fun h => by simp [BleCentralMain.main_loop_step] at h, fun _ => rfl⟩
  | noConnLong =>
      unfold BleCentralMain.main_loop_step
      dsimp only
      split
      · rename_i hcond
        exact ⟨fun _ => ⟨hcond.2, rfl⟩, fun hne => absurd rfl hne⟩
      · exact ⟨fun h => by simp at h, fun _ => rfl⟩

theorem emergency_resets_bound :
    ∀ (evs : List BleCentralMain.SupEvent) (s : BleCentralMain.SupSt),
      s.emergency_reset_count ≤ 2 →
      BleCentralMain.emergency_resets s evs + s.emergency_reset_count ≤ 2 := by
  intro evs
  induction evs with
  | nil => intro s hs; simpa [BleCentralMain.emergency_resets] using hs
  | cons e evs ih =>
      intro s hs
      simp only [BleCentralMain.emergency_resets]
      by_cases h : (BleCentralMain.main_loop_step e s).1 = .emergency
      · have h2 := (main_loop_step_emergency e s).1 h
        have ih2 := ih (BleCentralMain.main_loop_step e s).2 (by omega)
        rw [if_pos h]
        omega
      · have h2 := (main_loop_step_emergency e s).2 h
        have ih2 := ih (BleCentralMain.main_loop_step e s).2 (by omega)
        rw [if_neg h]
        omega

/-- C6: from the initial supervisory state (both counters zero), any sequence
of supervisory-loop iterations invokes `emergency_bt_reset` at most twice in
total, and once the emergency-reset cap is reached every further
persistent-failure iteration still performs the full stack reset
(`complete_bt_reset`), so recovery is never halted. -/
theorem C6_emergency_reset_cap :
    (∀ evs : List BleCentralMain.SupEvent,
      BleCentralMain.emergency_resets ⟨0, 0⟩ evs ≤ 2) ∧
    (∀ s : BleCentralMain.SupSt, 2 ≤ s.emergency_reset_count →
      (BleCentralMain.main_loop_step .noConnLong s).1 = .fullReset) := by
  constructor
  · intro evs
    have h := emergency_resets_bound evs ⟨0, 0⟩ (by decide)
    simpa using h
  · intro s hs
    unfold BleCentralMain.main_loop_step
    dsimp only
    rw [if_neg (fun h => absurd h.2 (by omega))]

/-- C6 witness: thirty consecutive persistent-failure iterations perform at
most two emergency resets, and at the cap a long outage still yields a full
stack reset. -/
theorem C6_emergency_reset_cap_witness :
    BleCentralMain.emergency_resets ⟨0, 0⟩
        (List.replicate 30 .noConnLong) ≤ 2 ∧
    (BleCentralMain.main_loop_step .noConnLong ⟨4, 2⟩).1 = .fullReset :=
  ⟨C6_emergency_reset_cap.1 (List.replicate 30 .noConnLong),
   C6_emergency_reset_cap.2 ⟨4, 2⟩ (by decide)⟩

/-- C7: a `bt_gatt_subscribe` attempt returning `-EALREADY` makes the
`ble_central` subscribe retry loop terminate with the "already subscribed"
success outcome — no further attempt is made and `error_recovery` is not
triggered (only the give-up outcome triggers it) — and at every gateway
subscribe site the `-EALREADY` result is not reported as a failure, exactly
like a plain success. -/
theorem C7_already_subscribed_is_success (f : Nat → Int) (fuel r : Nat)
    (hr : r < 5) (hf : f r = -EALREADY) :
    BleCentralMain.subscribe_loop f (fuel + 1) r = .alreadySubscribed ∧
    BleCentralMain.subscribe_recovery_triggered
      (BleCentralMain.subscribe_loop f (fuel + 1) r) = false ∧
    GatewayBle.subscribe_err_reported (-EALREADY) = false ∧
    GatewayBle.subscribe_err_reported 0 = GatewayBle.subscribe_err_reported (-EALREADY) := by
  have h1 : BleCentralMain.subscribe_loop f (fuel + 1) r = .alreadySubscribed := by
    unfold BleCentralMain.subscribe_loop
    rw [if_pos hr, hf, if_neg (by decide), if_pos rfl]
  exact ⟨h1, by rw [h1]; rfl, by decide, by decide⟩

/-- C7 witness: a transport that always answers `-EALREADY` ends the first
attempt of the retry loop in the already-subscribed success outcome. -/
theorem C7_already_subscribed_is_success_witness :
    BleCentralMain.subscribe_loop (fun _ => -EALREADY) 5 0 = .alreadySubscribed :=
  (C7_already_subscribed_is_success (fun _ => -EALREADY) 4 0 (by decide) rfl).1

/-- C8 (counterexample): `discover_func` in `src/ble_central/src/main.c`
never compares the callback's connection identity against `current_conn`: in
a state tracking connection 1, a service-found discovery callback arriving on
connection 2 still records the service handle range (0 becomes 10), so the
claimed no-op for mismatched discovery callbacks is false. -/
theorem C8_counterexample :
    ((⟨some 1, 0, 0, 0, 0, 0, ⟨some .nus, .primary, 1, 0xffff⟩, ⟨0, 0⟩, 0, 0⟩ :
        BleCentralMain.St).current_conn ≠ some 2) ∧
    (BleCentralMain.discover_func 2 (fun _ => 0) 0 (.found (.svc 10 .nus 20))
        ⟨some 1, 0, 0, 0, 0, 0, ⟨some .nus, .primary, 1, 0xffff⟩,
         ⟨0, 0⟩, 0, 0⟩).1.current_service_start_handle = 10 ∧
    (BleCentralMain.discover_func 2 (fun _ => 0) 0 (.found (.svc 10 .nus 20))
        ⟨some 1, 0, 0, 0, 0, 0, ⟨some .nus, .primary, 1, 0xffff⟩,
         ⟨0, 0⟩, 0, 0⟩).1.nus_service_end_handle = 20 := by
  exact ⟨by decide, rfl, rfl⟩

/-- C8 (amended): only the `disconnected` callback performs the
connection-identity check: for any state whose tracked connection differs
from the callback's connection, `disconnected` is a no-op (no handle-table or
subscription field changes); the discovery and notification callbacks perform
no such check and may mutate handle state for a mismatched connection (see
the counterexample). -/
theorem C8_disconnected_rejects_mismatch (s : BleCentralMain.St) (conn : Nat)
    (h : s.current_conn ≠ some conn) :
    BleCentralMain.disconnected conn s = s := by
  unfold BleCentralMain.disconnected
  rw [if_pos h]

/-- C8 witness: a disconnect callback for connection 5 while connection 1 is
tracked leaves the state untouched. -/
theorem C8_disconnected_rejects_mismatch_witness :
    BleCentralMain.disconnected 5
        { BleCentralMain.St.init with current_conn := some 1 } =
      { BleCentralMain.St.init with current_conn := some 1 } :=
  C8_disconnected_rejects_mismatch
    { BleCentralMain.St.init with current_conn := some 1 } 5 (by decide)

/-- A stored rental entry for tag `[1,2,3,4]` (16 identifier bytes,
`tag_id_len` 4), available for rent. -/
def c9_entry : RentalMgr.RentalEntry :=
  ⟨[1, 2, 3, 4] ++ List.replicate 12 0, 4, STATUS_AVAILABLE, 0, 0⟩

/-- A rental-start wire message for that tag whose `payload_len` field is
200, exceeding the 128-byte payload bound the spec requires receivers to
enforce. -/
def c9_msg : RentscanMsg :=
  ⟨CMD_RENTAL_START, 0, [1, 2, 3, 4] ++ List.replicate 12 0, 4, 1000, 60,
   List.replicate 128 0, 200⟩

/-- C9: neither receiver validates the length fields.  A message whose
`payload_len` (200) exceeds `MAX_MSG_PAYLOAD` (128) is fully processed by
`rental_manager_process_command` — it returns 0 and marks the item rented —
and the gateway's `notify_handler` forwards it to the message callback,
instead of rejecting it as the spec requires. -/
theorem C9_no_length_validation :
    MAX_MSG_PAYLOAD < c9_msg.payload_len ∧
    RentalMgr.rental_manager_process_command [c9_entry] c9_msg rentscan_msg_size =
      (0, [⟨[1, 2, 3, 4] ++ List.replicate 12 0, 4, STATUS_RENTED, 1000, 60⟩]) ∧
    GatewayBle.notify_handler_forwards true c9_msg rentscan_msg_size = true := by
  exact ⟨by decide, by decide, by decide⟩

/-- C10: the central-side send operations issue a GATT write only when both a
tracked connection and a non-zero RX value handle exist: with no connection
`send_to_peripheral` returns `-ENOTCONN` and the gateway's
`ble_central_send_message` returns `-ENOTCONN` (also when only the handle is
missing), with a connection but a zero RX handle `send_to_peripheral` returns
`-EINVAL`, and in all those cases no write is issued. -/
theorem C10_send_requires_conn_and_handle (s : BleCentralMain.St)
    (g : GatewayBle.GSt) (werr : Int) :
    (s.current_conn = none →
      BleCentralMain.send_to_peripheral werr s = (-ENOTCONN, false)) ∧
    (∀ c, s.current_conn = some c → s.nus_rx_handle = 0 →
      BleCentralMain.send_to_peripheral werr s = (-EINVAL, false)) ∧
    ((BleCentralMain.send_to_peripheral werr s).2 = true →
      s.current_conn ≠ none ∧ s.nus_rx_handle ≠ 0) ∧
    (g.current_conn = none ∨ g.nus_rx_handle = 0 →
      GatewayBle.ble_central_send_message werr g = (-ENOTCONN, false)) ∧
    ((GatewayBle.ble_central_send_message werr g).2 = true →
      g.current_conn ≠ none ∧ g.nus_rx_handle ≠ 0) := by
  refine ⟨?_, ?_, ?_, ?_, ?_⟩
  · intro h
    unfold BleCentralMain.send_to_peripheral
    rw [h]
  · intro c hc h0
    unfold BleCentralMain.send_to_peripheral
    rw [hc]
    dsimp only
    rw [if_pos h0]
  · intro h
    unfold BleCentralMain.send_to_peripheral at h
    match hcc : s.current_conn with
    | none => rw [hcc] at h; simp at h
    | some c =>
        rw [hcc] at h
        dsimp only at h
        by_cases h0 : s.nus_rx_handle = 0
        · rw [if_pos h0] at h
          simp at h
        · exact ⟨by simp [hcc], h0⟩
  · intro h
    unfold GatewayBle.ble_central_send_message
    rw [if_pos h]
  · intro h
    unfold GatewayBle.ble_central_send_message at h
    by_cases hc : g.current_conn = none ∨ g.nus_rx_handle = 0
    · rw [if_pos hc] at h
      simp at h
    · push_neg at hc
      exact hc

/-- C10 witness: with nothing tracked both send operations fail with
`-ENOTCONN` and issue no write. -/
theorem C10_send_requires_conn_and_handle_witness :
    BleCentralMain.send_to_peripheral 0 BleCentralMain.St.init = (-ENOTCONN, false) ∧
    GatewayBle.ble_central_send_message 0 GatewayBle.GSt.init = (-ENOTCONN, false) :=
  ⟨(C10_send_requires_conn_and_handle BleCentralMain.St.init GatewayBle.GSt.init 0).1 rfl,
   (C10_send_requires_conn_and_handle BleCentralMain.St.init GatewayBle.GSt.init 0).2.2.2.1
     (Or.inl rfl)⟩

end RentScan
